import Mathlib

/-!
Shallow embedding of the WebRTC signaling code (src/src/js/channel.js):
the `Channel` WAMP pub/sub wrapper, the public `WebRTC` call controller,
and the internal `WebRtcHandler`.

Stateful JavaScript methods are embedded as functions from the object's
state to a pair of the updated state and a list of externally observable
effect events (calls into the WAMP session, the peer connection, the media
layer, and the configured lifecycle callbacks).  Methods that can raise a
JavaScript exception (a `TypeError` from dereferencing `null`, or a
`SyntaxError` from `JSON.parse`) additionally return an `Option JsError`:
`some e` means the method aborted at that point with exception `e`, and the
returned state and events are those accumulated before the throw.
-/

/-- JavaScript runtime exceptions that the embedded code can raise. -/
inductive JsError where
  | typeError    -- dereferencing null/undefined
  | syntaxError  -- JSON.parse on malformed input
  deriving DecidableEq, Repr

/-- Primitive JavaScript values stored in constraint maps. -/
inductive JsValue where
  | bool (b : Bool)
  | num (n : Int)
  | str (s : String)
  deriving DecidableEq, Repr

section ChannelModel

/-!
### Channel (first part of channel.js)

`Channel` wraps a WAMP session.  `session_` is `null` until `open`'s
connect callback fires; we model it as an `Option Unit` (the session object
itself is opaque — every interaction with it is recorded as an effect).
-/

/-- Effects a `Channel` method performs on the underlying WAMP session. -/
inductive ChEvent where
  | sessSubscribe (topic : String)
  | sessUnsubscribe (topic : String)
  | sessPublish (topic : String) (data : String)
  | sessCall (uri : String)
  deriving DecidableEq, Repr

/-- State of a `Channel` object (channel.js lines 16-20). -/
structure Channel where
  username_ : String
  user_session_id_ : String
  session_ : Option Unit
  deriving DecidableEq, Repr

/-- `var Channel = function(username, user_session_id)`: constructor. -/
def Channel.init (username user_session_id : String) : Channel :=
  { username_ := username, user_session_id_ := user_session_id, session_ := none }

/-- `Channel.prototype.subscribe`: no-op when the session is not open. -/
def Channel.subscribe (c : Channel) (topic : String) : Channel × List ChEvent :=
  match c.session_ with
  | none => (c, [])
  | some _ => (c, [.sessSubscribe topic])

/-- `Channel.prototype.unsubscribe`: no-op when the session is not open. -/
def Channel.unsubscribe (c : Channel) (topic : String) : Channel × List ChEvent :=
  match c.session_ with
  | none => (c, [])
  | some _ => (c, [.sessUnsubscribe topic])

/-- `Channel.prototype.publish`: no-op when the session is not open.
(The `exclude_me` defaulting is omitted: due to the `exlude_me` parameter
spelling in the source, the flag passed to the session is always `true`, and
no claim observes it.) -/
def Channel.publish (c : Channel) (topic : String) (data : String) :
    Channel × List ChEvent :=
  match c.session_ with
  | none => (c, [])
  | some _ => (c, [.sessPublish topic data])

/-- What the value returned by `Channel.prototype.call` does when its
`then` member is applied to a callback. -/
inductive ThenBehavior where
  | immediate (value : Bool)   -- `{then: function(callback) { callback(false); }}`
  | sessionCall (uri : String) -- delegates to `session_.call`
  deriving DecidableEq, Repr

/-- `Channel.prototype.call`: with no open session it returns a continuation
that immediately invokes the callback with `false`; otherwise it forwards to
the session's `call`. -/
def Channel.call (c : Channel) (uri : String) : ThenBehavior :=
  match c.session_ with
  | none => .immediate false
  | some _ => .sessionCall uri

/-- Applying `.then(callback)` to the value `Channel.call` returned:
the callback receives the completion flag. -/
def runThen {α : Type} (t : ThenBehavior) (callback : Bool → α) : Option α :=
  match t with
  | .immediate v => some (callback v)   -- callback runs synchronously
  | .sessionCall _ => none              -- callback runs later, on RPC completion

end ChannelModel

section ChannelTheorems

/-- C9: for every `Channel` whose session is not open, `subscribe`,
`unsubscribe` and `publish` return without error, without state change and
without invoking the underlying session, and `call` returns a
then-continuation that immediately invokes its callback with `false`. -/
theorem channel_closed_session_noop (c : Channel) (topic data uri : String)
    (hs : c.session_ = none) :
    c.subscribe topic = (c, []) ∧
    c.unsubscribe topic = (c, []) ∧
    c.publish topic data = (c, []) ∧
    c.call uri = .immediate false ∧
    (∀ (callback : Bool → Bool), runThen (c.call uri) callback = some (callback false)) := by
  refine ⟨?_, ?_, ?_, ?_, ?_⟩ <;>
    simp [Channel.subscribe, Channel.unsubscribe, Channel.publish, Channel.call,
      runThen, hs]

/-- Witness for C9 at a freshly constructed (hence closed) channel. -/
theorem channel_closed_session_noop_witness :
    (Channel.init "alice" "sess1").publish "topic/t" "hello" =
      (Channel.init "alice" "sess1", []) :=
  (channel_closed_session_noop (Channel.init "alice" "sess1") "topic/t" "hello" "rpc"
    rfl).2.2.1

end ChannelTheorems

section WebRtcModel

/-!
### WebRTC layer (second part of channel.js)

The configuration object (`webRtcDefaultConfig`, lines 154-176).  Nullable
fields are `Option`s.  The four lifecycle callbacks are modelled by whether
they are configured (`true` = non-null); invoking one is an effect event.
The `p2p_channel` is opaque at this layer: the handler's interactions with
it (`subscribe`/`unsubscribe`/`publish`) are recorded as effect events, and
the channel's own session-closed behaviour is modelled separately above.
-/

/-- WebRTC configuration object. -/
structure Config where
  ice_servers : List String
  p2p_channel : Option Unit
  p2p_topic : Option String
  remote_video_display : String
  local_video_display : Option String
  video_width : Int
  video_height : Int
  video_frame_rate : Int
  enable_audio : Bool
  onReady : Bool
  onConnected : Bool
  onTerminated : Bool
  onError : Bool

/-- Browser environment capabilities consulted by the handler:
`document.getElementById` (may return null), and whether `getUserMedia` and
`RTCPeerConnection` are available (the source wraps both in try/catch). -/
structure Env where
  dom : String → Option String
  getUserMedia_supported : Bool
  rtc_supported : Bool

/-- A WebRTC constraints object: a `mandatory` key/value map and an
`optional` list.  JavaScript objects are string-keyed; the map is modelled
extensionally as `String → Option JsValue`. -/
structure Constraints where
  mandatory : String → Option JsValue
  optional : List JsValue

/-- Signaling messages carried over the P2P topic, as dispatched by
`onChannelMessage` on the parsed JSON's `type` tag. -/
inductive P2pMessage where
  | offer (sdp : String)
  | answer (sdp : String)
  | candidate (label : Int) (id : String) (cand : String)
  | bye
  | other (tag : String)   -- any unrecognized type tag
  deriving DecidableEq, Repr

/-- A raw inbound channel payload: either malformed (so `JSON.parse`
throws) or a parsed message. -/
inductive RawMessage where
  | unparseable
  | parsed (m : P2pMessage)
  deriving DecidableEq, Repr

/-- Externally observable effects of the WebRTC layer: calls into the
signaling channel, the peer connection, the media/display layer, the
configured lifecycle callbacks, and `alert`. -/
inductive Event where
  | subscribe (topic : Option String)
  | unsubscribe (topic : Option String)
  | publish (topic : Option String) (msg : P2pMessage)
  | getUserMedia
  | createConnection
  | closeConnection
  | addStream
  | stopStream
  | attachLocal (display : String)
  | detachLocal (display : String)
  | setRemoteDescription (sdp : String)
  | createAnswer
  | createOffer (c : Constraints)
  | addIceCandidate (label : Int) (cand : String)
  | setLocalDescription
  | callOnReady
  | callOnConnected
  | callOnTerminated
  | callOnError (msg : String)
  | alert (msg : String)

/-- `webrtc_reportError` (lines 141-147): call the configured error
callback, otherwise show an alert. -/
def webrtc_reportError (config : Config) (message : String) : Event :=
  if config.onError then .callOnError message else .alert message

/-- State of a `WebRtcHandler` object (constructor, lines 243-272). -/
structure Handler where
  webrtc_config_ : Config
  p2p_subscribed_ : Bool
  p2p_connection_ : Option Unit
  remote_video_display_ : Option String
  local_video_display_ : Option String
  sdp_constraints_ : Constraints
  offer_constraints_ : Constraints
  do_call_ : Bool
  local_stream_ : Option Unit

/-- `var WebRtcHandler = function(webrtc_config)`: initial handler state.
(`sdp_constraints_` has no `optional` property in the source; it is modelled
as `[]` — the field is only ever passed opaquely to `createAnswer` and read
by a `concat` whose result is discarded.) -/
def WebRtcHandler.init (webrtc_config : Config) : Handler :=
  { webrtc_config_ := webrtc_config
    p2p_subscribed_ := false
    p2p_connection_ := none
    remote_video_display_ := none
    local_video_display_ := none
    sdp_constraints_ :=
      { mandatory := fun name =>
          if name = "OfferToReceiveAudio" then some (.bool webrtc_config.enable_audio)
          else if name = "OfferToReceiveVideo" then some (.bool true)
          else none
        optional := [] }
    offer_constraints_ := { mandatory := fun _ => none, optional := [] }
    do_call_ := false
    local_stream_ := none }

/-- `send` (lines 510-513): JSON-stringify and publish on the P2P topic. -/
def Handler.send (h : Handler) (p2p_message : P2pMessage) : List Event :=
  [.publish h.webrtc_config_.p2p_topic p2p_message]

/-- `removeLocalStream` (lines 428-432): detach the local display if set. -/
def Handler.removeLocalStream (h : Handler) : List Event :=
  match h.local_video_display_ with
  | some d => [.detachLocal d]
  | none => []

/-- `doHangup` (lines 477-493): close the connection if present, unsubscribe
if subscribed, detach and stop the local stream if present, then invoke
`onTerminated` if configured.  Note the source clears `p2p_connection_` and
`p2p_subscribed_` but never clears `local_stream_`, and the `onTerminated`
call is unguarded by any of the three conditions. -/
def Handler.doHangup (h : Handler) : Handler × List Event :=
  let (h1, e1) :=
    match h.p2p_connection_ with
    | some _ => ({ h with p2p_connection_ := none }, [Event.closeConnection])
    | none => (h, [])
  let (h2, e2) :=
    if h1.p2p_subscribed_ then
      ({ h1 with p2p_subscribed_ := false },
       [Event.unsubscribe h1.webrtc_config_.p2p_topic])
    else (h1, [])
  let e3 :=
    match h2.local_stream_ with
    | some _ => h2.removeLocalStream ++ [Event.stopStream]
    | none => []
  let e4 := if h2.webrtc_config_.onTerminated then [Event.callOnTerminated] else []
  (h2, e1 ++ e2 ++ e3 ++ e4)

/-- `mergeConstraints` (lines 522-529), effect on the constraint contents:
the for-in loop writes every key of `constraints_2.mandatory` into the first
object's mandatory map; `merged.optional.concat(...)`'s result is discarded,
so the optional list is the first object's, unchanged. -/
def Handler.mergeConstraints (constraints_1 constraints_2 : Constraints) : Constraints :=
  { mandatory := fun name =>
      match constraints_2.mandatory name with
      | some v => some v
      | none => constraints_1.mandatory name
    optional := constraints_1.optional }

/-- A heap of constraint objects, for stating the in-place/aliasing facts
about `mergeConstraints`: object references are `Nat`s. -/
def ObjHeap : Type := Nat → Constraints

/-- `mergeConstraints` at the object level: `var merged = constraints_1`
aliases the first argument, the loop mutates it in place, and `merged`
(i.e. the first argument's reference) is returned. -/
def Handler.mergeConstraintsRef (heap : ObjHeap) (r1 r2 : Nat) : ObjHeap × Nat :=
  (Function.update heap r1 (Handler.mergeConstraints (heap r1) (heap r2)), r1)

/-- `doCall` (lines 462-465): merge the offer constraints with the SDP
constraints and create an offer with the merged object.  Because
`mergeConstraints` mutates its first argument (`this.offer_constraints_`)
in place and returns it, the stored `offer_constraints_` field is updated
and the very same object is passed to `createOffer`.  `createOffer` is
invoked on `p2p_connection_`, which throws if it is null. -/
def Handler.doCall (h : Handler) : Handler × List Event × Option JsError :=
  let constraints := Handler.mergeConstraints h.offer_constraints_ h.sdp_constraints_
  let h' := { h with offer_constraints_ := constraints }
  match h.p2p_connection_ with
  | none => (h', [], some .typeError)
  | some _ => (h', [.createOffer constraints], none)

/-- `onChannelMessage` (lines 338-357): parse the payload and dispatch on
its `type` tag.  `JSON.parse` throws on malformed input; the offer, answer
and candidate branches call methods on `p2p_connection_` without a null
check, so they throw a `TypeError` when no connection exists (before any
handler state is mutated); `bye` runs `onRemoteHangup`, i.e. `doHangup`;
any other tag falls through every branch with no effect. -/
def Handler.onChannelMessage (h : Handler) (message : RawMessage) :
    Handler × List Event × Option JsError :=
  match message with
  | .unparseable => (h, [], some .syntaxError)
  | .parsed m =>
    match m with
    | .offer sdp =>
      match h.p2p_connection_ with
      | none => (h, [], some .typeError)
      | some _ => (h, [.setRemoteDescription sdp, .createAnswer], none)
    | .answer sdp =>
      match h.p2p_connection_ with
      | none => (h, [], some .typeError)
      | some _ => (h, [.setRemoteDescription sdp], none)
    | .candidate label _ cand =>
      -- `new RTCIceCandidate({...})` is constructed locally first, then
      -- `addIceCandidate` is invoked on the (possibly null) connection.
      match h.p2p_connection_ with
      | none => (h, [], some .typeError)
      | some _ => (h, [.addIceCandidate label cand], none)
    | .bye => (h.doHangup.1, h.doHangup.2, none)
    | .other _ => (h, [], none)

/-- `initialize` (lines 311-330): resolve the display elements, subscribe
to the P2P topic, mark subscribed, then request user media (reporting an
error if `getUserMedia` is unavailable). -/
def Handler.initialize (env : Env) (h : Handler) : Handler × List Event :=
  let h1 := { h with
    remote_video_display_ := env.dom h.webrtc_config_.remote_video_display
    local_video_display_ :=
      match h.webrtc_config_.local_video_display with
      | some d => env.dom d
      | none => h.local_video_display_ }
  let h2 := { h1 with p2p_subscribed_ := true }
  let es :=
    if env.getUserMedia_supported then [Event.getUserMedia]
    else [webrtc_reportError h.webrtc_config_ "getUserMedia() is not supported."]
  (h2, [Event.subscribe h.webrtc_config_.p2p_topic] ++ es)

/-- `WebRtcHandler.listen` (lines 282-285). -/
def Handler.listen (env : Env) (h : Handler) : Handler × List Event :=
  Handler.initialize env { h with do_call_ := false }

/-- `WebRtcHandler.call` (lines 290-293). -/
def Handler.callH (env : Env) (h : Handler) : Handler × List Event :=
  Handler.initialize env { h with do_call_ := true }

/-- `WebRtcHandler.hangup` (lines 298-301): send a Bye, then tear down. -/
def Handler.hangup (h : Handler) : Handler × List Event :=
  let e1 := h.send .bye
  let (h', e2) := h.doHangup
  (h', e1 ++ e2)

/-- `createP2PConnection` (lines 388-398): construct the peer connection,
or report an error and leave it null if the capability is unsupported. -/
def Handler.createP2PConnection (env : Env) (h : Handler) : Handler × List Event :=
  if env.rtc_supported then
    ({ h with p2p_connection_ := some () }, [.createConnection])
  else
    ({ h with p2p_connection_ := none },
     [webrtc_reportError h.webrtc_config_ "WebRTC P2P connection is not supported."])

/-- `onUserMediaSuccess` (lines 364-374): store the stream, attach it
locally, create the peer connection, add the stream, originate the offer
when acting as caller, and fire `onReady`. -/
def Handler.onUserMediaSuccess (env : Env) (h : Handler) :
    Handler × List Event × Option JsError :=
  let h1 := { h with local_stream_ := some () }
  let e1 :=
    match h1.local_video_display_ with
    | some d => [Event.attachLocal d]
    | none => []
  let (h2, e2) := h1.createP2PConnection env
  match h2.p2p_connection_ with
  | none => (h2, e1 ++ e2, none)   -- `if (this.p2p_connection_ == null) return;`
  | some _ =>
    let (h3, e3, err) :=
      if h2.do_call_ then
        let (h', es, er) := h2.doCall
        (h', [Event.addStream] ++ es, er)
      else (h2, [Event.addStream], none)
    match err with
    | some e => (h3, e1 ++ e2 ++ e3, some e)
    | none =>
      let e4 := if h3.webrtc_config_.onReady then [Event.callOnReady] else []
      (h3, e1 ++ e2 ++ e3 ++ e4, none)

/-!
### The public `WebRTC` controller (lines 181-235)

The constructor either fails validation — reporting an error and leaving
`state_` and `webrtc_handler_` undefined, so the instance is permanently
unusable — or sets `state_ = INITIALIZED` and constructs a handler.
-/

/-- `WebRtcState` (lines 181-185). -/
inductive WebRtcState where
  | INITIALIZED
  | CALLING
  | TERMINATED
  deriving DecidableEq, Repr

/-- A `WebRTC` instance: `unusable` when the constructor returned early
(both fields left undefined), otherwise the state plus the handler. -/
inductive WebRTCInst where
  | unusable
  | active (state_ : WebRtcState) (handler : Handler)

/-- The `state_` field of an instance (`none` = undefined). -/
def WebRTCInst.stateOf : WebRTCInst → Option WebRtcState
  | .unusable => none
  | .active s _ => some s

/-- The configured P2P topic of an instance's handler. -/
def WebRTCInst.topicOf : WebRTCInst → Option String
  | .unusable => none
  | .active _ h => h.webrtc_config_.p2p_topic

/-- `var WebRTC = function(webrtc_config)` (lines 193-206): validate the
ICE servers, then the P2P channel/topic; on failure report the error and
return with no state machine and no handler. -/
def WebRTC.init (webrtc_config : Config) : WebRTCInst × List Event :=
  if webrtc_config.ice_servers.length = 0 then
    (.unusable, [webrtc_reportError webrtc_config "No ICE servers specified."])
  else
    match webrtc_config.p2p_channel, webrtc_config.p2p_topic with
    | some _, some t =>
      if t.length = 0 then
        (.unusable, [webrtc_reportError webrtc_config "Invalid P2P specification."])
      else
        (.active .INITIALIZED (WebRtcHandler.init webrtc_config), [])
    | _, _ =>
      (.unusable, [webrtc_reportError webrtc_config "Invalid P2P specification."])

/-- `WebRTC.prototype.listen` (lines 212-216): only from INITIALIZED. -/
def WebRTC.listen (env : Env) : WebRTCInst → WebRTCInst × List Event
  | .unusable => (.unusable, [])
  | .active s h =>
    if s ≠ .INITIALIZED then (.active s h, [])
    else
      let (h', es) := Handler.listen env h
      (.active .CALLING h', es)

/-- `WebRTC.prototype.call` (lines 221-225): only from INITIALIZED. -/
def WebRTC.call (env : Env) : WebRTCInst → WebRTCInst × List Event
  | .unusable => (.unusable, [])
  | .active s h =>
    if s ≠ .INITIALIZED then (.active s h, [])
    else
      let (h', es) := Handler.callH env h
      (.active .CALLING h', es)

/-- `WebRTC.prototype.hangup` (lines 230-234): only from CALLING. -/
def WebRTC.hangup : WebRTCInst → WebRTCInst × List Event
  | .unusable => (.unusable, [])
  | .active s h =>
    if s ≠ .CALLING then (.active s h, [])
    else
      let (h', es) := Handler.hangup h
      (.active .TERMINATED h', es)

/-- Delivery of an inbound message on the subscribed topic: the channel
invokes the handler's bound `onChannelMessage`; nothing on this path reads
or writes the controller's `state_` field. -/
def WebRTCInst.deliver : WebRTCInst → RawMessage → WebRTCInst × List Event × Option JsError
  | .unusable, _ => (.unusable, [], none)
  | .active s h, message =>
    let (h', es, err) := h.onChannelMessage message
    (.active s h', es, err)

/-- `N` consecutive invocations of `doHangup` with no intervening state
changes, with the emitted effects concatenated in order. -/
def Handler.iterHangup : Nat → Handler → Handler × List Event
  | 0, h => (h, [])
  | n + 1, h =>
    ((Handler.iterHangup n h.doHangup.1).1,
     h.doHangup.2 ++ (Handler.iterHangup n h.doHangup.1).2)

/-- Rank of a controller state along the lifecycle order
(undefined < INITIALIZED < CALLING < TERMINATED); the public state never
decreases under any operation. -/
def stateRank : Option WebRtcState → Nat
  | none => 0
  | some .INITIALIZED => 1
  | some .CALLING => 2
  | some .TERMINATED => 3

/-- Is this event the publication of a Bye message? -/
def Event.isByePublish : Event → Bool
  | .publish _ .bye => true
  | _ => false

/-- Is this event an unsubscribe call on the signaling channel? -/
def Event.isUnsubscribe : Event → Bool
  | .unsubscribe _ => true
  | _ => false

/-- Is this event the closing of the peer connection? -/
def Event.isCloseConnection : Event → Bool
  | .closeConnection => true
  | _ => false

/-- Is this event a stop of the local media stream? -/
def Event.isStopStream : Event → Bool
  | .stopStream => true
  | _ => false

/-- Is this event an invocation of the `onTerminated` callback? -/
def Event.isCallOnTerminated : Event → Bool
  | .callOnTerminated => true
  | _ => false

/-- Is this event an invocation of a lifecycle callback
(`onReady`/`onConnected`/`onTerminated`)? -/
def Event.isLifecycle : Event → Bool
  | .callOnReady => true
  | .callOnConnected => true
  | .callOnTerminated => true
  | _ => false

/-- Is this event an invocation of the error policy (the `onError`
callback or an `alert`)? -/
def Event.isErrorReport : Event → Bool
  | .callOnError _ => true
  | .alert _ => true
  | _ => false

end WebRtcModel

section Fixtures

/-- A fully populated valid configuration, used to instantiate theorems at
concrete inputs. -/
def cfgFull : Config :=
  { ice_servers := ["stun:stun.example.org"]
    p2p_channel := some ()
    p2p_topic := some "events/p2p"
    remote_video_display := "remote_video"
    local_video_display := none
    video_width := 320
    video_height := 240
    video_frame_rate := 10
    enable_audio := true
    onReady := true
    onConnected := true
    onTerminated := true
    onError := true }

/-- A browser environment with every capability available. -/
def envStd : Env :=
  { dom := fun i => some i
    getUserMedia_supported := true
    rtc_supported := true }

/-- A handler in mid-call shape: subscribed, with a live peer connection
and a local stream (as after `listen`/`call` and a successful media and
connection setup). -/
def hActive : Handler :=
  { WebRtcHandler.init cfgFull with
    p2p_subscribed_ := true
    p2p_connection_ := some ()
    local_stream_ := some () }

/-- A concrete constraints object. -/
def conA : Constraints :=
  { mandatory := fun k => if k = "a" then some (.num 1) else none
    optional := [.num 7] }

/-- A second concrete constraints object, overlapping `conA` on key "a". -/
def conB : Constraints :=
  { mandatory := fun k =>
      if k = "a" then some (.num 2)
      else if k = "b" then some (.bool true) else none
    optional := [.num 8] }

/-- `cfgFull` with the ICE server list emptied, failing constructor
validation. -/
def cfgNoIce : Config := { cfgFull with ice_servers := [] }

/-- A concrete two-object heap: reference 0 holds `conA`, every other
reference holds `conB`. -/
def heapAB : ObjHeap := fun r => if r = 0 then conA else conB

end Fixtures

section HelperLemmas

/-- The handler state after `doHangup`: the connection and the subscription
flag are cleared; everything else — in particular `local_stream_` — is left
as it was. -/
theorem doHangup_state (h : Handler) :
    (Handler.doHangup h).1 = { h with p2p_connection_ := none, p2p_subscribed_ := false } := by
  cases h with
  | mk cfg sub conn rdisp ldisp sdp off dc ls =>
    cases conn <;> cases sub <;> simp [Handler.doHangup]

/-- The effect trace of a single `doHangup`, spelled out branch by
branch. -/
theorem doHangup_events (h : Handler) :
    (Handler.doHangup h).2 =
      (if h.p2p_connection_.isSome then [Event.closeConnection] else []) ++
      (if h.p2p_subscribed_ then [Event.unsubscribe h.webrtc_config_.p2p_topic] else []) ++
      (if h.local_stream_.isSome then
        (match h.local_video_display_ with
         | some d => [Event.detachLocal d]
         | none => []) ++ [Event.stopStream]
       else []) ++
      (if h.webrtc_config_.onTerminated then [Event.callOnTerminated] else []) := by
  cases hc : h.p2p_connection_ <;> cases hs : h.p2p_subscribed_ <;>
    cases hl : h.local_stream_ <;>
    simp [Handler.doHangup, Handler.removeLocalStream, hc, hs, hl]

/-- Per-predicate counts of a single `doHangup`'s effects. -/
theorem doHangup_counts (h : Handler) :
    (Handler.doHangup h).2.countP Event.isCloseConnection =
      (if h.p2p_connection_.isSome then 1 else 0) ∧
    (Handler.doHangup h).2.countP Event.isUnsubscribe =
      (if h.p2p_subscribed_ then 1 else 0) ∧
    (Handler.doHangup h).2.countP Event.isStopStream =
      (if h.local_stream_.isSome then 1 else 0) ∧
    (Handler.doHangup h).2.countP Event.isCallOnTerminated =
      (if h.webrtc_config_.onTerminated then 1 else 0) := by
  rw [doHangup_events]
  cases hc : h.p2p_connection_ <;> cases hs : h.p2p_subscribed_ <;>
    cases hl : h.local_stream_ <;> cases hd : h.local_video_display_ <;>
    cases ht : h.webrtc_config_.onTerminated <;>
    simp [List.countP_append, List.countP_cons, Event.isCloseConnection,
      Event.isUnsubscribe, Event.isStopStream, Event.isCallOnTerminated]

/-- `doHangup` never publishes anything — in particular no Bye. -/
theorem doHangup_filter_bye (h : Handler) :
    (Handler.doHangup h).2.filter Event.isByePublish = [] := by
  rw [doHangup_events]
  cases hc : h.p2p_connection_ <;> cases hs : h.p2p_subscribed_ <;>
    cases hl : h.local_stream_ <;> cases hd : h.local_video_display_ <;>
    cases ht : h.webrtc_config_.onTerminated <;>
    simp [Event.isByePublish]

end HelperLemmas

section ClaimC1

/-- C1: for every `WebRTC` instance, `hangup()` publishes exactly one Bye
message (`{type:"bye"}`) to the configured topic and transitions the state
to TERMINATED if and only if the state before the call was CALLING; in
every other state (INITIALIZED, TERMINATED, or an unusable instance)
`hangup()` sends no message and changes no state. -/
theorem hangup_one_bye_iff_calling (w : WebRTCInst) :
    (w.stateOf = some .CALLING →
      (WebRTC.hangup w).1.stateOf = some .TERMINATED ∧
      (WebRTC.hangup w).2.filter Event.isByePublish = [Event.publish w.topicOf .bye]) ∧
    ((WebRTC.hangup w).2.countP Event.isByePublish = 1 ↔ w.stateOf = some .CALLING) ∧
    (((WebRTC.hangup w).1.stateOf = some .TERMINATED ∧ w.stateOf ≠ some .TERMINATED) ↔
      w.stateOf = some .CALLING) ∧
    (w.stateOf ≠ some .CALLING → WebRTC.hangup w = (w, [])) := by
  cases w with
  | unusable =>
    simp [WebRTC.hangup, WebRTCInst.stateOf]
  | active s h =>
    cases s <;>
      simp [WebRTC.hangup, WebRTCInst.stateOf, WebRTCInst.topicOf, Handler.hangup,
        Handler.send, List.filter_append, List.countP_append, doHangup_filter_bye,
        List.countP_eq_length_filter, Event.isByePublish]

/-- Witness for C1: hanging up a concrete CALLING instance reaches
TERMINATED. -/
theorem hangup_one_bye_iff_calling_witness :
    (WebRTC.hangup (.active .CALLING hActive)).1.stateOf = some .TERMINATED :=
  ((hangup_one_bye_iff_calling (.active .CALLING hActive)).1 rfl).1

end ClaimC1

section ClaimC2

/-- C2: `listen()` and `call()` set the state to CALLING (and delegate to
the handler) if and only if the state before the call was INITIALIZED; in
any other state the state is unchanged and nothing is delegated.  The state
never regresses, CALLING is reached by exactly one of `listen()`/`call()`
(once CALLING, both are no-ops), TERMINATED is reached only from CALLING,
TERMINATED is absorbing, and the constructor starts at INITIALIZED or
produces an unusable instance. -/
theorem listen_call_iff_initialized (env : Env) (w : WebRTCInst) (c : Config) :
    (∀ h, w = .active .INITIALIZED h →
      WebRTC.listen env w =
        (.active .CALLING (Handler.listen env h).1, (Handler.listen env h).2) ∧
      WebRTC.call env w =
        (.active .CALLING (Handler.callH env h).1, (Handler.callH env h).2)) ∧
    (w.stateOf ≠ some .INITIALIZED →
      WebRTC.listen env w = (w, []) ∧ WebRTC.call env w = (w, [])) ∧
    stateRank w.stateOf ≤ stateRank (WebRTC.listen env w).1.stateOf ∧
    stateRank w.stateOf ≤ stateRank (WebRTC.call env w).1.stateOf ∧
    stateRank w.stateOf ≤ stateRank (WebRTC.hangup w).1.stateOf ∧
    (w.stateOf = some .CALLING →
      WebRTC.listen env w = (w, []) ∧ WebRTC.call env w = (w, [])) ∧
    ((WebRTC.listen env w).1.stateOf = some .TERMINATED → w.stateOf = some .TERMINATED) ∧
    ((WebRTC.call env w).1.stateOf = some .TERMINATED → w.stateOf = some .TERMINATED) ∧
    ((WebRTC.hangup w).1.stateOf = some .TERMINATED →
      w.stateOf = some .CALLING ∨ w.stateOf = some .TERMINATED) ∧
    (w.stateOf = some .TERMINATED →
      WebRTC.listen env w = (w, []) ∧ WebRTC.call env w = (w, []) ∧
      WebRTC.hangup w = (w, [])) ∧
    ((WebRTC.init c).1.stateOf = none ∨ (WebRTC.init c).1.stateOf = some .INITIALIZED) := by
  have hinit : (WebRTC.init c).1.stateOf = none ∨
      (WebRTC.init c).1.stateOf = some .INITIALIZED := by
    unfold WebRTC.init
    by_cases hi : c.ice_servers.length = 0
    · simp [hi, WebRTCInst.stateOf]
    · cases hch : c.p2p_channel with
      | none => cases ht : c.p2p_topic <;> simp [hi, hch, ht, WebRTCInst.stateOf]
      | some u =>
        cases ht : c.p2p_topic with
        | none => simp [hi, hch, ht, WebRTCInst.stateOf]
        | some t =>
          by_cases hl : t.length = 0 <;>
            simp [hi, hch, ht, hl, WebRTCInst.stateOf]
  cases w with
  | unusable =>
    refine ⟨?_, ?_, ?_, ?_, ?_, ?_, ?_, ?_, ?_, ?_, hinit⟩ <;>
      simp [WebRTC.listen, WebRTC.call, WebRTC.hangup, WebRTCInst.stateOf, stateRank]
  | active s h =>
    cases s <;>
      refine ⟨?_, ?_, ?_, ?_, ?_, ?_, ?_, ?_, ?_, ?_, hinit⟩ <;>
      simp [WebRTC.listen, WebRTC.call, WebRTC.hangup, WebRTCInst.stateOf, stateRank]

/-- Witness for C2: `listen()` on a concrete INITIALIZED instance reaches
CALLING and delegates to the handler. -/
theorem listen_call_iff_initialized_witness :
    WebRTC.listen envStd (.active .INITIALIZED (WebRtcHandler.init cfgFull)) =
      (.active .CALLING (Handler.listen envStd (WebRtcHandler.init cfgFull)).1,
       (Handler.listen envStd (WebRtcHandler.init cfgFull)).2) :=
  ((listen_call_iff_initialized envStd
      (.active .INITIALIZED (WebRtcHandler.init cfgFull)) cfgFull).1
    (WebRtcHandler.init cfgFull) rfl).1

end ClaimC2

section ClaimC3

/-- One unfolding step of `iterHangup`. -/
theorem iterHangup_step (n : Nat) (h : Handler) :
    Handler.iterHangup (n + 1) h =
      ((Handler.iterHangup n h.doHangup.1).1,
       h.doHangup.2 ++ (Handler.iterHangup n h.doHangup.1).2) := rfl

/-- Effect counts of `n+1` consecutive `doHangup` calls: the connection
close and the unsubscribe happen at most once (their guards are cleared),
but the stream stop and the `onTerminated` invocation repeat on every call,
because `local_stream_` is never cleared and the callback is unguarded. -/
theorem iterHangup_succ_counts : ∀ (n : Nat) (h : Handler),
    (Handler.iterHangup (n + 1) h).2.countP Event.isCloseConnection =
      (if h.p2p_connection_.isSome then 1 else 0) ∧
    (Handler.iterHangup (n + 1) h).2.countP Event.isUnsubscribe =
      (if h.p2p_subscribed_ then 1 else 0) ∧
    (Handler.iterHangup (n + 1) h).2.countP Event.isStopStream =
      (if h.local_stream_.isSome then n + 1 else 0) ∧
    (Handler.iterHangup (n + 1) h).2.countP Event.isCallOnTerminated =
      (if h.webrtc_config_.onTerminated then n + 1 else 0) := by
  intro n
  induction n with
  | zero =>
    intro h
    simpa [Handler.iterHangup] using doHangup_counts h
  | succ n ih =>
    intro h
    obtain ⟨c1, c2, c3, c4⟩ := doHangup_counts h
    obtain ⟨i1, i2, i3, i4⟩ := ih (Handler.doHangup h).1
    rw [doHangup_state] at i1 i2 i3 i4
    simp only at i1 i2 i3 i4
    rw [iterHangup_step (n + 1) h, doHangup_state h]
    simp only [List.countP_append]
    refine ⟨?_, ?_, ?_, ?_⟩
    · rw [c1, i1]; simp
    · rw [c2, i2]; simp
    · rw [c3, i3]
      cases hl : h.local_stream_ <;> (simp [hl]; try omega)
    · rw [c4, i4]
      cases ht : h.webrtc_config_.onTerminated <;> (simp [ht]; try omega)

/-- C3 (amended): `doHangup()` is only partially idempotent.  For every
`N ≥ 1`, invoking it `N` times in a row with no intervening state changes
performs at most one unsubscribe and at most one PeerLink close, but the
local-stream stop occurs on every one of the `N` calls while a local stream
is present (the stream field is never cleared), and the `onTerminated`
callback fires once per call (`N` times) when configured. -/
theorem doHangup_repeat_effects (h : Handler) (N : Nat) (hN : 1 ≤ N) :
    (Handler.iterHangup N h).2.countP Event.isCloseConnection ≤ 1 ∧
    (Handler.iterHangup N h).2.countP Event.isUnsubscribe ≤ 1 ∧
    (Handler.iterHangup N h).2.countP Event.isStopStream =
      (if h.local_stream_.isSome then N else 0) ∧
    (Handler.iterHangup N h).2.countP Event.isCallOnTerminated =
      (if h.webrtc_config_.onTerminated then N else 0) := by
  obtain ⟨n, rfl⟩ : ∃ n, N = n + 1 := ⟨N - 1, by omega⟩
  obtain ⟨s1, s2, s3, s4⟩ := iterHangup_succ_counts n h
  refine ⟨?_, ?_, s3, s4⟩
  · rw [s1]; split <;> omega
  · rw [s2]; split <;> omega

/-- Counterexample for C3 as stated: on a handler with a live stream and a
configured `onTerminated` callback, two consecutive `doHangup()` calls stop
the stream twice and invoke `onTerminated` twice, while a single call does
each once. -/
theorem doHangup_repeat_effects_cex :
    (Handler.iterHangup 1 hActive).2.countP Event.isCallOnTerminated = 1 ∧
    (Handler.iterHangup 1 hActive).2.countP Event.isStopStream = 1 ∧
    (Handler.iterHangup 2 hActive).2.countP Event.isCallOnTerminated = 2 ∧
    (Handler.iterHangup 2 hActive).2.countP Event.isStopStream = 2 := by
  refine ⟨?_, ?_, ?_, ?_⟩ <;> rfl

/-- Witness for C3 (amended) at a concrete mid-call handler and `N = 3`. -/
theorem doHangup_repeat_effects_witness :
    (Handler.iterHangup 3 hActive).2.countP Event.isUnsubscribe ≤ 1 ∧
    (Handler.iterHangup 3 hActive).2.countP Event.isStopStream = 3 := by
  have hmain := doHangup_repeat_effects hActive 3 (by omega)
  refine ⟨hmain.2.1, ?_⟩
  have h3 := hmain.2.2.1
  simpa [hActive] using h3

end ClaimC3

section ClaimC4

/-- C4 (amended): for every handler whose PeerLink has not yet been created
(`p2p_connection_` is null), receiving a Candidate or Answer message
mutates no handler state and queues nothing, but it does raise a TypeError
(the connection is dereferenced without a null check) which propagates out
of `onChannelMessage` instead of the message being silently dropped. -/
theorem early_candidate_answer_raises (h : Handler) (sdp : String)
    (label : Int) (id cand : String) (hc : h.p2p_connection_ = none) :
    Handler.onChannelMessage h (.parsed (.answer sdp)) = (h, [], some .typeError) ∧
    Handler.onChannelMessage h (.parsed (.candidate label id cand)) =
      (h, [], some .typeError) := by
  constructor <;> simp [Handler.onChannelMessage, hc]

/-- Counterexample for C4 as stated: on a freshly constructed handler (no
PeerLink yet) an inbound Answer does raise an exception rather than having
no observable effect. -/
theorem early_candidate_answer_raises_cex :
    (Handler.onChannelMessage (WebRtcHandler.init cfgFull)
        (.parsed (.answer "v=0"))).2.2 = some .typeError ∧
    (Handler.onChannelMessage (WebRtcHandler.init cfgFull)
        (.parsed (.candidate 0 "audio" "candidate:1"))).2.2 = some .typeError :=
  ⟨rfl, rfl⟩

/-- Witness for C4 (amended) at a freshly constructed handler. -/
theorem early_candidate_answer_raises_witness :
    Handler.onChannelMessage (WebRtcHandler.init cfgFull) (.parsed (.answer "v=0")) =
      (WebRtcHandler.init cfgFull, [], some .typeError) :=
  (early_candidate_answer_raises (WebRtcHandler.init cfgFull) "v=0" 0 "audio"
    "candidate:1" rfl).1

end ClaimC4

section ClaimC5

/-- C5 (amended): an inbound message with an unrecognized type tag is
silently ignored — no exception, no state change, no effect, and in
particular the error policy (`onError`/alert) is not invoked.  An
unparseable message, however, is not silently ignored: `JSON.parse` raises
a SyntaxError that propagates (the error policy is still not invoked, and
no state changes). -/
theorem unrecognized_tag_ignored (h : Handler) (tag : String) :
    Handler.onChannelMessage h (.parsed (.other tag)) = (h, [], none) ∧
    Handler.onChannelMessage h .unparseable = (h, [], some .syntaxError) ∧
    (Handler.onChannelMessage h (.parsed (.other tag))).2.1.countP
      Event.isErrorReport = 0 ∧
    (Handler.onChannelMessage h .unparseable).2.1.countP Event.isErrorReport = 0 :=
  ⟨rfl, rfl, rfl, rfl⟩

/-- Counterexample for C5 as stated: an unparseable inbound message does
raise an error (a SyntaxError from `JSON.parse`), rather than being
silently ignored. -/
theorem unparseable_raises_cex :
    (Handler.onChannelMessage (WebRtcHandler.init cfgFull) .unparseable).2.2 =
      some .syntaxError :=
  rfl

end ClaimC5

section ClaimC6

/-- C6: for all constraint objects `A` and `B`, `mergeConstraints(A, B)`
returns a result in which every key present in `B`'s mandatory map appears
with `B`'s value, every key present only in `A`'s mandatory map is
preserved with `A`'s value, and the result's optional list is exactly `A`'s
(the `concat` result is discarded), so no optional entry of `B` is added —
any `B`-only optional entry is absent from the result. -/
theorem mergeConstraints_spec (A B : Constraints) (k : String) (v e : JsValue) :
    (B.mandatory k = some v → (Handler.mergeConstraints A B).mandatory k = some v) ∧
    (B.mandatory k = none → (Handler.mergeConstraints A B).mandatory k = A.mandatory k) ∧
    (Handler.mergeConstraints A B).optional = A.optional ∧
    (e ∈ B.optional → e ∉ A.optional → e ∉ (Handler.mergeConstraints A B).optional) := by
  refine ⟨fun hb => ?_, fun hb => ?_, rfl, fun _ ha => ?_⟩
  · simp [Handler.mergeConstraints, hb]
  · simp [Handler.mergeConstraints, hb]
  · simpa [Handler.mergeConstraints] using ha

/-- Witness for C6 on concrete constraint objects: `B`'s value wins on the
shared key "a", `A`-only keys persist, and `B`'s optional entry `8` is not
in the merged optional list. -/
theorem mergeConstraints_spec_witness :
    (Handler.mergeConstraints conA conB).mandatory "a" = some (.num 2) ∧
    (Handler.mergeConstraints conA conB).optional = [.num 7] ∧
    JsValue.num 8 ∉ (Handler.mergeConstraints conA conB).optional := by
  refine ⟨(mergeConstraints_spec conA conB "a" (.num 2) (.num 8)).1 rfl,
    (mergeConstraints_spec conA conB "a" (.num 2) (.num 8)).2.2.1,
    (mergeConstraints_spec conA conB "a" (.num 2) (.num 8)).2.2.2 ?_ ?_⟩ <;>
    simp [conA, conB]

end ClaimC6

section ClaimC7

/-- C7: constructing a `WebRTC` instance with an empty `ice_servers` list
reports exactly the error "No ICE servers specified." via the error policy
(`onError` if configured, otherwise an alert), initializes no state machine
and no handler (the instance is unusable), fires no lifecycle callback at
construction, and every subsequent `listen()`/`call()`/`hangup()` (and any
delivered message) is a no-op producing no effect and no callback. -/
theorem empty_ice_servers_unusable (c : Config) (env : Env) (m : RawMessage)
    (hice : c.ice_servers = []) :
    WebRTC.init c = (.unusable, [webrtc_reportError c "No ICE servers specified."]) ∧
    webrtc_reportError c "No ICE servers specified." =
      (if c.onError then Event.callOnError "No ICE servers specified."
       else Event.alert "No ICE servers specified.") ∧
    (WebRTC.init c).2.countP Event.isLifecycle = 0 ∧
    WebRTC.listen env (WebRTC.init c).1 = (.unusable, []) ∧
    WebRTC.call env (WebRTC.init c).1 = (.unusable, []) ∧
    WebRTC.hangup (WebRTC.init c).1 = (.unusable, []) ∧
    WebRTCInst.deliver (WebRTC.init c).1 m = (.unusable, [], none) := by
  have h0 : WebRTC.init c =
      (.unusable, [webrtc_reportError c "No ICE servers specified."]) := by
    simp [WebRTC.init, hice]
  refine ⟨h0, rfl, ?_, ?_, ?_, ?_, ?_⟩ <;>
    rw [h0] <;>
    by_cases he : c.onError <;>
    simp [webrtc_reportError, Event.isLifecycle, he, WebRTC.listen, WebRTC.call,
      WebRTC.hangup, WebRTCInst.deliver]

/-- Witness for C7 at a concrete configuration with `ice_servers := []`. -/
theorem empty_ice_servers_unusable_witness :
    WebRTC.init cfgNoIce =
      (.unusable, [webrtc_reportError cfgNoIce "No ICE servers specified."]) ∧
    WebRTC.listen envStd (WebRTC.init cfgNoIce).1 = (.unusable, []) := by
  have hmain := empty_ice_servers_unusable cfgNoIce envStd .unparseable rfl
  exact ⟨hmain.1, hmain.2.2.2.1⟩

end ClaimC7

section ClaimC8

/-- C8: receiving a Bye message executes the full teardown (`doHangup`)
without any local `hangup()` call, and this path leaves the public state
field untouched: for any controller state `s` — in particular CALLING —
the state after the remote Bye is still `s`, even though the PeerLink has
been closed, the topic unsubscribed, and the local stream stopped. -/
theorem remote_bye_bypasses_state (s : WebRtcState) (h : Handler)
    (hc : h.p2p_connection_.isSome = true) (hsub : h.p2p_subscribed_ = true)
    (hl : h.local_stream_.isSome = true) :
    WebRTCInst.deliver (.active s h) (.parsed .bye) =
      (.active s (Handler.doHangup h).1, (Handler.doHangup h).2, none) ∧
    (WebRTCInst.deliver (.active s h) (.parsed .bye)).1.stateOf = some s ∧
    (Handler.doHangup h).1.p2p_connection_ = none ∧
    (Handler.doHangup h).1.p2p_subscribed_ = false ∧
    (Handler.doHangup h).2.countP Event.isCloseConnection = 1 ∧
    (Handler.doHangup h).2.countP Event.isUnsubscribe = 1 ∧
    (Handler.doHangup h).2.countP Event.isStopStream = 1 := by
  obtain ⟨c1, c2, c3, c4⟩ := doHangup_counts h
  refine ⟨?_, ?_, ?_, ?_, ?_, ?_, ?_⟩
  · simp [WebRTCInst.deliver, Handler.onChannelMessage]
  · simp [WebRTCInst.deliver, Handler.onChannelMessage, WebRTCInst.stateOf]
  · simp [doHangup_state]
  · simp [doHangup_state]
  · simp [c1, hc]
  · simp [c2, hsub]
  · simp [c3, hl]

/-- Witness for C8: a concrete mid-call handler in CALLING state stays in
CALLING after a remote Bye even though the session was torn down. -/
theorem remote_bye_bypasses_state_witness :
    (WebRTCInst.deliver (.active .CALLING hActive) (.parsed .bye)).1.stateOf =
      some .CALLING ∧
    (Handler.doHangup hActive).1.p2p_connection_ = none := by
  have hmain := remote_bye_bypasses_state .CALLING hActive rfl rfl rfl
  exact ⟨hmain.2.1, hmain.2.2.1⟩

end ClaimC8

section ClaimC10

/-- C10: `mergeConstraints(A, B)` mutates its first argument in place and
returns that same object (the returned reference is the first argument's
reference, its cell now holds the merged contents, and no other cell
changes); consequently each `doCall()` stores the merged constraints back
into the handler's `offer_constraints_` field and passes that very object
to `createOffer`, so the handler's `sdp_constraints_` mandatory keys
(`OfferToReceiveAudio`, `OfferToReceiveVideo`) are permanently added to the
stored `offer_constraints_`. -/
theorem mergeConstraints_in_place (heap : ObjHeap) (r1 r2 r : Nat) (h : Handler)
    (c : Config) (hr : r ≠ r1) :
    (Handler.mergeConstraintsRef heap r1 r2).2 = r1 ∧
    (Handler.mergeConstraintsRef heap r1 r2).1 r1 =
      Handler.mergeConstraints (heap r1) (heap r2) ∧
    (Handler.mergeConstraintsRef heap r1 r2).1 r = heap r ∧
    (Handler.doCall h).1.offer_constraints_ =
      Handler.mergeConstraints h.offer_constraints_ h.sdp_constraints_ ∧
    ((Handler.doCall h).2.1 = [] ∨
      (Handler.doCall h).2.1 =
        [Event.createOffer (Handler.doCall h).1.offer_constraints_]) ∧
    (Handler.doCall (WebRtcHandler.init c)).1.offer_constraints_.mandatory
      "OfferToReceiveAudio" = some (.bool c.enable_audio) ∧
    (Handler.doCall (WebRtcHandler.init c)).1.offer_constraints_.mandatory
      "OfferToReceiveVideo" = some (.bool true) := by
  refine ⟨rfl, ?_, ?_, ?_, ?_, ?_, ?_⟩
  · simp [Handler.mergeConstraintsRef]
  · simp [Handler.mergeConstraintsRef, Function.update, hr]
  · cases hcc : h.p2p_connection_ <;> simp [Handler.doCall, hcc]
  · cases hcc : h.p2p_connection_ <;> simp [Handler.doCall, hcc]
  · simp [Handler.doCall, WebRtcHandler.init, Handler.mergeConstraints]
  · simp [Handler.doCall, WebRtcHandler.init, Handler.mergeConstraints]

/-- Witness for C10 on a concrete heap and handler: the merge returns its
first argument's reference, and after `doCall` on a fresh handler the
stored offer constraints contain the audio-reception key. -/
theorem mergeConstraints_in_place_witness :
    (Handler.mergeConstraintsRef heapAB 0 1).2 = 0 ∧
    (Handler.doCall (WebRtcHandler.init cfgFull)).1.offer_constraints_.mandatory
      "OfferToReceiveAudio" = some (.bool cfgFull.enable_audio) := by
  have hmain := mergeConstraints_in_place heapAB 0 1 2 hActive cfgFull (by omega)
  exact ⟨hmain.1, hmain.2.2.2.2.2.1⟩

end ClaimC10
